import Mathlib

/-!
Shallow embedding of the ensemble scoring module of `is-it-real`
(`calculateVariance`, `calculateEnsembleScore`, `determineVerdict`,
`DETECTOR_WEIGHTS`, `THRESHOLDS`, `VERDICTS`).

Modelling conventions: JS numbers are modelled as `ℚ` where the source only
ever combines them by field arithmetic, and as `ℝ` where `Math.sqrt` is
involved (the standard deviation and everything downstream of it).  A JS
value that may be `null` is modelled as an `Option`; JS coerces `null` to `0`
in numeric comparisons, which `Option.getD 0` reproduces.  An object key that
is absent on one code path (`visionCouncilDominant`, `audit.note`,
`audit.weights`, `audit.calculation`) is modelled as `false` / `none` there.
Timestamps (`new Date().toISOString()`) and the templated `explanation`
strings are not modelled; all other fields are.
-/

namespace IsItReal

/-- Result of one detector adapter, as consumed by `calculateEnsembleScore`:
a source name, an optional 0–100 score (`null` when the API failed), the
detector's self-reported confidence in [0,1], and opaque metadata. -/
structure DetectorResult where
  source : String
  score : Option ℚ
  confidence : ℚ
  metadata : String
deriving DecidableEq

/-- Static weight table `DETECTOR_WEIGHTS` from the source: vision_council
0.50, hive 0.20, sightengine 0.15, heuristics 0.10, illuminarty 0.05; any
other source is absent from the table. -/
def DETECTOR_WEIGHTS (source : String) : Option ℚ :=
  match source with
  | "vision_council" => some (1/2)
  | "hive" => some (1/5)
  | "sightengine" => some (3/20)
  | "heuristics" => some (1/10)
  | "illuminarty" => some (1/20)
  | _ => none

/-- Weight lookup `DETECTOR_WEIGHTS[result.source] || 0.10`: the table value
when present (all table values are truthy), else the 0.10 fallback. -/
def defaultWeight (source : String) : ℚ :=
  (DETECTOR_WEIGHTS source).getD (1/10)

/-- Verdict threshold constants `THRESHOLDS` from the source. -/
structure Thresholds where
  LIKELY_AUTHENTIC : ℚ
  UNCERTAIN_LOW : ℚ
  UNCERTAIN_HIGH : ℚ
  LIKELY_SYNTHETIC : ℚ
  VARIANCE_MODERATE : ℚ
  VARIANCE_HIGH : ℚ

/-- Threshold values: 30 / 30 / 70 / 70 / 15 / 25. -/
def THRESHOLDS : Thresholds :=
  { LIKELY_AUTHENTIC := 30, UNCERTAIN_LOW := 30, UNCERTAIN_HIGH := 70,
    LIKELY_SYNTHETIC := 70, VARIANCE_MODERATE := 15, VARIANCE_HIGH := 25 }

/-- The closed verdict set `VERDICTS`. -/
inductive Verdict where
  | VERIFIED_AUTHENTIC
  | LIKELY_AUTHENTIC
  | UNCERTAIN
  | LIKELY_SYNTHETIC
  | INCONCLUSIVE
deriving DecidableEq

/-- Rounding to two decimals, `Math.round(x * 100) / 100` on rationals; JS
`Math.round` rounds halves toward positive infinity, i.e. `⌊x + 1/2⌋`. -/
def roundQ2 (x : ℚ) : ℚ :=
  ((⌊x * 100 + 1/2⌋ : ℤ) : ℚ) / 100

/-- Rounding to two decimals, `Math.round(x * 100) / 100` on reals. -/
noncomputable def round2R (x : ℝ) : ℝ :=
  ((⌊x * 100 + 1/2⌋ : ℤ) : ℝ) / 100

/-- Mean used inside `calculateVariance`: `reduce((sum, s) => sum + s, 0) /
scores.length`. -/
def meanOf (scores : List ℚ) : ℚ :=
  scores.sum / scores.length

/-- Population variance before the square root: mean of squared deviations
from the mean, divisor `N`. -/
def varianceSq (scores : List ℚ) : ℚ :=
  (scores.map (fun s => (s - meanOf scores) ^ 2)).sum / scores.length

/-- The source's `calculateVariance`: 0 for zero or one score, otherwise
`Math.sqrt` of the population variance (so a standard deviation). -/
noncomputable def calculateVariance (scores : List ℚ) : ℝ :=
  if scores.length = 0 then 0
  else if scores.length = 1 then 0
  else Real.sqrt (varianceSq scores)

/-- Availability filter: `r.score !== null && r.score !== undefined`. -/
def isAvailable (r : DetectorResult) : Bool :=
  r.score.isSome

/-- The `available` list of `calculateEnsembleScore`. -/
def availableOf (results : List DetectorResult) : List DetectorResult :=
  results.filter isAvailable

/-- Present score of an available result; `Option.getD 0` mirrors JS null
coercion and is only ever applied to present scores. -/
def scoreQ (r : DetectorResult) : ℚ :=
  r.score.getD 0

/-- Lookup `available.find(r => r.source === 'vision_council')`: the first
vision_council entry of the available list, if any. -/
def findVisionCouncil (avail : List DetectorResult) : Option DetectorResult :=
  avail.find? (fun r => r.source == "vision_council")

/-- The `visionIsConfident` flag: the first available vision_council entry
exists, has confidence ≥ 0.80, and its score is ≥ 75 or ≤ 25. -/
def visionIsConfident (avail : List DetectorResult) : Bool :=
  match findVisionCouncil avail with
  | some vc =>
      decide ((4/5 : ℚ) ≤ vc.confidence) &&
        (decide ((75 : ℚ) ≤ scoreQ vc) || decide (scoreQ vc ≤ (25 : ℚ)))
  | none => false

/-- Effective weight of one source inside the accumulation loop: 0.70 for
vision_council under the dominant boost, half the default weight for the
others under the boost, the default weight otherwise. -/
def effectiveWeight (dominant : Bool) (source : String) : ℚ :=
  if dominant && source == "vision_council" then 7/10
  else if dominant then defaultWeight source * (1/2)
  else defaultWeight source

/-- Accumulated `weightedSum` of the loop. -/
def weightedSumOf (avail : List DetectorResult) (dominant : Bool) : ℚ :=
  (avail.map (fun r => scoreQ r * effectiveWeight dominant r.source)).sum

/-- Accumulated `totalWeight` of the loop. -/
def totalWeightOf (avail : List DetectorResult) (dominant : Bool) : ℚ :=
  (avail.map (fun r => effectiveWeight dominant r.source)).sum

/-- Accumulated `scores` array of the loop. -/
def rawScoresOf (avail : List DetectorResult) : List ℚ :=
  avail.map scoreQ

/-- Normalization `totalWeight > 0 ? weightedSum / totalWeight : 0`. -/
def normalizedScoreOf (avail : List DetectorResult) (dominant : Bool) : ℚ :=
  if 0 < totalWeightOf avail dominant then
    weightedSumOf avail dominant / totalWeightOf avail dominant
  else 0

/-- Confidence formula `Math.max(0, 1 - variance / 50)`. -/
noncomputable def confidenceOfVariance (v : ℝ) : ℝ :=
  max 0 (1 - v / 50)

/-- One entry of `audit.detectors`: source, raw score, the effective weight
rounded to two decimals, the detector's confidence, and its metadata. -/
structure AuditDetector where
  source : String
  score : ℚ
  weight : ℚ
  confidence : ℚ
  metadata : String
deriving DecidableEq

/-- The `audit.calculation` record: unrounded weighted sum, total weight and
normalized score, plus the boost flag. -/
structure Calculation where
  weightedSum : ℚ
  totalWeight : ℚ
  normalizedScore : ℚ
  visionCouncilBoosted : Bool

/-- The `audit` object; `note` appears only on the empty path, `weights` and
`calculation` only on the non-empty path. -/
structure Audit where
  detectors : List AuditDetector
  note : Option String
  weights : Option (String → Option ℚ)
  calculation : Option Calculation

/-- The `EnsembleResult` returned by `calculateEnsembleScore`. -/
structure EnsembleResult where
  score : Option ℚ
  variance : Option ℝ
  confidence : ℝ
  availableDetectors : ℕ
  visionCouncilDominant : Bool
  audit : Audit

/-- The `audit.detectors` array built by the source: one record per available
detector, with the actual weight rounded via `Math.round(w * 100) / 100`. -/
def auditDetectorsOf (avail : List DetectorResult) (dominant : Bool) :
    List AuditDetector :=
  avail.map (fun r =>
    { source := r.source, score := scoreQ r,
      weight := roundQ2 (effectiveWeight dominant r.source),
      confidence := r.confidence, metadata := r.metadata })

/-- The source's `calculateEnsembleScore`: filter to available results,
short-circuit when none are, otherwise compute the dominant-signal flag, the
weighted sum and total weight, normalize, take the variance of the raw
scores, derive confidence, and assemble the rounded result with its audit. -/
noncomputable def calculateEnsembleScore (results : List DetectorResult) :
    EnsembleResult :=
  let avail := availableOf results
  if avail.length = 0 then
    { score := none, variance := none, confidence := 0,
      availableDetectors := 0, visionCouncilDominant := false,
      audit := { detectors := [], note := some "No detector results available",
                 weights := none, calculation := none } }
  else
    let dominant := visionIsConfident avail
    let weightedSum := weightedSumOf avail dominant
    let totalWeight := totalWeightOf avail dominant
    let ensembleScore := normalizedScoreOf avail dominant
    let variance := calculateVariance (rawScoresOf avail)
    let confidence := confidenceOfVariance variance
    { score := some (roundQ2 ensembleScore),
      variance := some (round2R variance),
      confidence := round2R confidence,
      availableDetectors := avail.length,
      visionCouncilDominant := dominant,
      audit := { detectors := auditDetectorsOf avail dominant,
                 note := none,
                 weights := some DETECTOR_WEIGHTS,
                 calculation := some { weightedSum := weightedSum,
                                       totalWeight := totalWeight,
                                       normalizedScore := ensembleScore,
                                       visionCouncilBoosted := dominant } } }

/-- Provenance check result consumed by `determineVerdict`. -/
structure ProvenanceResult where
  hasCredentials : Bool
  isValid : Bool
  issuer : String
  signedAt : String
deriving DecidableEq

/-- The `factors.provenance` field: a `{present, valid, issuer, timestamp}`
summary on the provenance-override path, the raw (possibly null) provenance
result on every other path. -/
inductive ProvFactor where
  | summary (present : Bool) (valid : Bool) (issuer : String) (timestamp : String)
  | raw (p : Option ProvenanceResult)

/-- The `factors` object of a verdict. -/
structure Factors where
  provenance : ProvFactor
  detection : EnsembleResult

/-- The object returned by `determineVerdict` (timestamps and the templated
explanation string are not modelled). -/
structure VerdictResult where
  verdict : Verdict
  confidence : ℝ
  factors : Factors
  recommendation : String

/-- Guard `provenanceResult?.hasCredentials && provenanceResult?.isValid`;
optional chaining on `null` yields a falsy value. -/
def provenanceValid (p : Option ProvenanceResult) : Bool :=
  match p with
  | some pr => pr.hasCredentials && pr.isValid
  | none => false

/-- The `factors.provenance` summary built on the provenance-override path;
the `none` case is unreachable there since the guard requires credentials. -/
def provFactorOf (p : Option ProvenanceResult) : ProvFactor :=
  match p with
  | some pr => .summary true true pr.issuer pr.signedAt
  | none => .raw none

/-- Variance of an ensemble result as `determineVerdict` compares it: JS
coerces a `null` variance to 0 in `<` and `>` comparisons. -/
noncomputable def varJS (e : EnsembleResult) : ℝ :=
  e.variance.getD 0

/-- The source's `determineVerdict`: provenance override first, then the
null-score fallback, then the variance gate, then the two score thresholds,
else UNCERTAIN. -/
noncomputable def determineVerdict (e : EnsembleResult)
    (p : Option ProvenanceResult) : VerdictResult :=
  if provenanceValid p then
    { verdict := .VERIFIED_AUTHENTIC, confidence := 1,
      factors := { provenance := provFactorOf p, detection := e },
      recommendation := "TRUST - Cryptographically verified provenance." }
  else
    match e.score with
    | none =>
        { verdict := .INCONCLUSIVE, confidence := 0,
          factors := { provenance := .raw p, detection := e },
          recommendation := "MANUAL REVIEW - Automated analysis unavailable." }
    | some s =>
        if ((THRESHOLDS.VARIANCE_HIGH : ℚ) : ℝ) < varJS e then
          { verdict := .INCONCLUSIVE, confidence := e.confidence,
            factors := { provenance := .raw p, detection := e },
            recommendation := "MANUAL REVIEW - Detection signals conflict." }
        else if s < THRESHOLDS.LIKELY_AUTHENTIC ∧
            varJS e < ((THRESHOLDS.VARIANCE_MODERATE : ℚ) : ℝ) then
          { verdict := .LIKELY_AUTHENTIC, confidence := e.confidence,
            factors := { provenance := .raw p, detection := e },
            recommendation := "LIKELY SAFE - Low synthetic indicators." }
        else if THRESHOLDS.LIKELY_SYNTHETIC < s ∧
            varJS e < ((THRESHOLDS.VARIANCE_MODERATE : ℚ) : ℝ) then
          { verdict := .LIKELY_SYNTHETIC, confidence := e.confidence,
            factors := { provenance := .raw p, detection := e },
            recommendation := "CAUTION - Strong synthetic indicators." }
        else
          { verdict := .UNCERTAIN, confidence := e.confidence,
            factors := { provenance := .raw p, detection := e },
            recommendation := "REVIEW - Ambiguous signals require human judgment." }

/-- Unfolding of the non-empty branch of `calculateEnsembleScore`. -/
lemma calculateEnsembleScore_ne_nil (results : List DetectorResult)
    (h : availableOf results ≠ []) :
    calculateEnsembleScore results =
      { score := some (roundQ2 (normalizedScoreOf (availableOf results)
          (visionIsConfident (availableOf results)))),
        variance := some (round2R (calculateVariance (rawScoresOf (availableOf results)))),
        confidence := round2R (confidenceOfVariance
          (calculateVariance (rawScoresOf (availableOf results)))),
        availableDetectors := (availableOf results).length,
        visionCouncilDominant := visionIsConfident (availableOf results),
        audit := { detectors := auditDetectorsOf (availableOf results)
                     (visionIsConfident (availableOf results)),
                   note := none,
                   weights := some DETECTOR_WEIGHTS,
                   calculation := some
                     { weightedSum := weightedSumOf (availableOf results)
                         (visionIsConfident (availableOf results)),
                       totalWeight := totalWeightOf (availableOf results)
                         (visionIsConfident (availableOf results)),
                       normalizedScore := normalizedScoreOf (availableOf results)
                         (visionIsConfident (availableOf results)),
                       visionCouncilBoosted := visionIsConfident (availableOf results) } } } := by
  have hlen : ¬ (availableOf results).length = 0 := by
    simpa [List.length_eq_zero] using h
  simp [calculateEnsembleScore, hlen]

/-- A detector result used to instantiate witnesses. -/
def emptyEnsemble : EnsembleResult :=
  { score := none, variance := none, confidence := 0, availableDetectors := 0,
    visionCouncilDominant := false,
    audit := { detectors := [], note := some "No detector results available",
               weights := none, calculation := none } }

/-- C1: for every ensemble result and every provenance result with
credentials present and valid, `determineVerdict` returns VERIFIED_AUTHENTIC
with confidence exactly 1.0, and the ensemble result is retained unchanged in
`factors.detection`. -/
theorem c1_provenance_override (e : EnsembleResult) (p : ProvenanceResult)
    (hc : p.hasCredentials = true) (hv : p.isValid = true) :
    (determineVerdict e (some p)).verdict = Verdict.VERIFIED_AUTHENTIC ∧
    (determineVerdict e (some p)).confidence = 1 ∧
    (determineVerdict e (some p)).factors.detection = e := by
  have hp : provenanceValid (some p) = true := by
    simp [provenanceValid, hc, hv]
  simp [determineVerdict, hp]

/-- Witness for C1 at a concrete extreme input: a unanimous synthetic signal
is still overridden by valid provenance. -/
theorem c1_provenance_override_witness :
    (determineVerdict emptyEnsemble (some ⟨true, true, "adobe", "2025-01-01"⟩)).verdict =
        Verdict.VERIFIED_AUTHENTIC ∧
    (determineVerdict emptyEnsemble (some ⟨true, true, "adobe", "2025-01-01"⟩)).confidence = 1 ∧
    (determineVerdict emptyEnsemble (some ⟨true, true, "adobe", "2025-01-01"⟩)).factors.detection =
      emptyEnsemble :=
  c1_provenance_override emptyEnsemble ⟨true, true, "adobe", "2025-01-01"⟩ rfl rfl

/-- C7: when every detector result lacks a score, `calculateEnsembleScore`
returns score null, variance null, confidence 0, zero available detectors,
and an audit noting that no detector produced output; being a total function
it never raises. -/
theorem c7_no_detectors (results : List DetectorResult)
    (h : ∀ r ∈ results, r.score = none) :
    calculateEnsembleScore results = emptyEnsemble := by
  have hav : availableOf results = [] := by
    refine List.filter_eq_nil_iff.mpr ?_
    intro r hr
    simp [isAvailable, h r hr]
  simp [calculateEnsembleScore, emptyEnsemble, hav]

/-- Witness for C7: two failed detectors yield the null result. -/
theorem c7_no_detectors_witness :
    calculateEnsembleScore
      [⟨"hive", none, 1/2, "timeout"⟩, ⟨"sightengine", none, 0, "error"⟩] =
      emptyEnsemble :=
  c7_no_detectors _ (by simp)

/-- Sum of a mapped list as a sum over positions. -/
lemma list_sum_map_eq_fin_sum (l : List ℚ) (f : ℚ → ℚ) :
    (l.map f).sum = ∑ i : Fin l.length, f (l.get i) := by
  induction l with
  | nil => simp
  | cons a t ih =>
      rw [List.map_cons, List.sum_cons, ih]
      exact (Fin.sum_univ_succ (fun i : Fin (t.length + 1) => f ((a :: t).get i))).symm

/-- Cast of a list of rationals summed in the reals, as a sum over
positions. -/
lemma list_map_ratCast_sum (l : List ℚ) :
    (l.map (Rat.cast : ℚ → ℝ)).sum = ∑ j : Fin l.length, ((l.get j : ℚ) : ℝ) := by
  induction l with
  | nil => simp
  | cons a t ih =>
      rw [List.map_cons, List.sum_cons, ih]
      exact (Fin.sum_univ_succ (fun j : Fin (t.length + 1) => (((a :: t).get j : ℚ) : ℝ))).symm

/-- C5: `calculateVariance` returns 0 on zero or one score, and on two or
more scores returns the population standard deviation: the square root of
the mean of squared deviations from the arithmetic mean, divisor N; it is a
total function. -/
theorem c5_population_std_dev (scores : List ℚ) :
    (scores.length ≤ 1 → calculateVariance scores = 0) ∧
    (2 ≤ scores.length →
      calculateVariance scores =
        Real.sqrt ((∑ i : Fin scores.length,
            (((scores.get i : ℚ) : ℝ) -
              (∑ j : Fin scores.length, ((scores.get j : ℚ) : ℝ)) / scores.length) ^ 2)
          / scores.length)) := by
  constructor
  · intro h
    match scores, h with
    | [], _ => simp [calculateVariance]
    | [a], _ => simp [calculateVariance]
  · intro h2
    have h0 : ¬ scores.length = 0 := by omega
    have h1 : ¬ scores.length = 1 := by omega
    rw [calculateVariance, if_neg h0, if_neg h1]
    congr 1
    rw [varianceSq, meanOf, list_sum_map_eq_fin_sum]
    push_cast
    rw [list_map_ratCast_sum]

/-- Witness for C5: detectors scoring 10 and 30 have standard deviation 10. -/
theorem c5_population_std_dev_witness :
    calculateVariance [10, 30] = 10 := by
  have h := (c5_population_std_dev [10, 30]).2 (by norm_num)
  rw [h]
  have hsum : ((∑ i : Fin (List.length [(10 : ℚ), 30]),
      ((([(10 : ℚ), 30].get i : ℚ) : ℝ) -
        (∑ j : Fin (List.length [(10 : ℚ), 30]),
          (([(10 : ℚ), 30].get j : ℚ) : ℝ)) / (List.length [(10 : ℚ), 30])) ^ 2)
      / (List.length [(10 : ℚ), 30]) : ℝ) = 10 ^ 2 := by
    simp [Fin.sum_univ_succ]
    norm_num
  rw [hsum, Real.sqrt_sq (by norm_num : (0 : ℝ) ≤ 10)]

/-- Monotonicity of two-decimal rounding on reals. -/
lemma round2R_mono {x y : ℝ} (h : x ≤ y) : round2R x ≤ round2R y := by
  unfold round2R
  have hf : ⌊x * 100 + 1/2⌋ ≤ ⌊y * 100 + 1/2⌋ :=
    Int.floor_le_floor (by linarith)
  have hf2 : ((⌊x * 100 + 1/2⌋ : ℤ) : ℝ) ≤ ((⌊y * 100 + 1/2⌋ : ℤ) : ℝ) := by
    exact_mod_cast hf
  linarith

/-- C6: the ensemble confidence is the rounded value of
`max(0, 1 − variance/50)` taken at the unrounded standard deviation of the
raw available scores; it is 0 once the variance reaches 50, and it is
monotonically non-increasing in the variance, before and after rounding. -/
theorem c6_confidence_decay :
    (∀ results : List DetectorResult, availableOf results ≠ [] →
      (calculateEnsembleScore results).confidence =
        round2R (confidenceOfVariance (calculateVariance (rawScoresOf (availableOf results))))) ∧
    (∀ v : ℝ, 50 ≤ v → confidenceOfVariance v = 0) ∧
    (∀ v1 v2 : ℝ, v1 ≤ v2 →
      confidenceOfVariance v2 ≤ confidenceOfVariance v1 ∧
      round2R (confidenceOfVariance v2) ≤ round2R (confidenceOfVariance v1)) := by
  refine ⟨?_, ?_, ?_⟩
  · intro results h
    rw [calculateEnsembleScore_ne_nil results h]
  · intro v hv
    unfold confidenceOfVariance
    exact max_eq_left (by linarith)
  · intro v1 v2 h
    have hc : confidenceOfVariance v2 ≤ confidenceOfVariance v1 := by
      unfold confidenceOfVariance
      exact max_le_max le_rfl (by linarith)
    exact ⟨hc, round2R_mono hc⟩

/-- Witness for C6: a single available detector has variance 0, so the
ensemble confidence rounds to exactly 1. -/
theorem c6_confidence_decay_witness :
    (calculateEnsembleScore [⟨"hive", some 40, 1/2, "ok"⟩]).confidence = 1 := by
  have h := c6_confidence_decay.1 [⟨"hive", some 40, 1/2, "ok"⟩] (by decide)
  rw [h]
  have h1 : rawScoresOf (availableOf [⟨"hive", some 40, 1/2, "ok"⟩]) = [40] := rfl
  rw [h1]
  have h2 : calculateVariance [40] = 0 := by simp [calculateVariance]
  rw [h2]
  have h3 : confidenceOfVariance 0 = 1 := by
    unfold confidenceOfVariance
    norm_num
  rw [h3]
  unfold round2R
  norm_num

/-- Threshold classification of a (score, variance) pair exactly as the
comparisons of `determineVerdict` read: variance gate first, then the two
score thresholds, else UNCERTAIN. -/
noncomputable def thresholdVerdict (s : ℚ) (v : ℝ) : Verdict :=
  if (25 : ℝ) < v then .INCONCLUSIVE
  else if s < 30 ∧ v < (15 : ℝ) then .LIKELY_AUTHENTIC
  else if 70 < s ∧ v < (15 : ℝ) then .LIKELY_SYNTHETIC
  else .UNCERTAIN

/-- Numeric value of the high-variance threshold as a real. -/
lemma cast_VARIANCE_HIGH : ((THRESHOLDS.VARIANCE_HIGH : ℚ) : ℝ) = 25 := by
  norm_num [THRESHOLDS]

/-- Numeric value of the moderate-variance threshold as a real. -/
lemma cast_VARIANCE_MODERATE : ((THRESHOLDS.VARIANCE_MODERATE : ℚ) : ℝ) = 15 := by
  norm_num [THRESHOLDS]

/-- On a present score and failed provenance guard, the verdict of
`determineVerdict` is the threshold classification of the stored score and
variance fields. -/
lemma determineVerdict_of_some (e : EnsembleResult) (p : Option ProvenanceResult)
    (hp : provenanceValid p = false) (s : ℚ) (hs : e.score = some s) :
    (determineVerdict e p).verdict = thresholdVerdict s (varJS e) := by
  unfold determineVerdict thresholdVerdict
  rw [hp, hs]
  simp only [Bool.false_eq_true, if_false, cast_VARIANCE_HIGH, cast_VARIANCE_MODERATE,
    show THRESHOLDS.LIKELY_AUTHENTIC = (30 : ℚ) from rfl,
    show THRESHOLDS.LIKELY_SYNTHETIC = (70 : ℚ) from rfl]
  split_ifs <;> rfl

/-- C10: the score, variance and confidence fields of the ensemble result
are the exact computed values rounded to two decimals, `audit.calculation`
keeps the unrounded weighted sum, total weight and normalized score, and the
threshold comparisons of `determineVerdict` are made against the rounded
fields. -/
theorem c10_rounded_fields (results : List DetectorResult)
    (h : availableOf results ≠ []) :
    (calculateEnsembleScore results).score =
      some (roundQ2 (normalizedScoreOf (availableOf results)
        (visionIsConfident (availableOf results)))) ∧
    (calculateEnsembleScore results).variance =
      some (round2R (calculateVariance (rawScoresOf (availableOf results)))) ∧
    (calculateEnsembleScore results).confidence =
      round2R (confidenceOfVariance (calculateVariance (rawScoresOf (availableOf results)))) ∧
    (calculateEnsembleScore results).audit.calculation =
      some { weightedSum := weightedSumOf (availableOf results)
               (visionIsConfident (availableOf results)),
             totalWeight := totalWeightOf (availableOf results)
               (visionIsConfident (availableOf results)),
             normalizedScore := normalizedScoreOf (availableOf results)
               (visionIsConfident (availableOf results)),
             visionCouncilBoosted := visionIsConfident (availableOf results) } ∧
    (∀ p : Option ProvenanceResult, provenanceValid p = false →
      (determineVerdict (calculateEnsembleScore results) p).verdict =
        thresholdVerdict
          (roundQ2 (normalizedScoreOf (availableOf results)
            (visionIsConfident (availableOf results))))
          (round2R (calculateVariance (rawScoresOf (availableOf results))))) := by
  rw [calculateEnsembleScore_ne_nil results h]
  refine ⟨rfl, rfl, rfl, rfl, ?_⟩
  intro p hp
  exact determineVerdict_of_some _ p hp _ rfl

/-- Witness for C10 at one available detector scoring 50: the stored score
is the rounded normalized score and the verdict classifies the rounded
values. -/
theorem c10_rounded_fields_witness :
    (calculateEnsembleScore [⟨"hive", some 50, 1/2, "ok"⟩]).score =
      some (roundQ2 (normalizedScoreOf (availableOf [⟨"hive", some 50, 1/2, "ok"⟩])
        (visionIsConfident (availableOf [⟨"hive", some 50, 1/2, "ok"⟩])))) ∧
    (determineVerdict (calculateEnsembleScore [⟨"hive", some 50, 1/2, "ok"⟩]) none).verdict =
      thresholdVerdict
        (roundQ2 (normalizedScoreOf (availableOf [⟨"hive", some 50, 1/2, "ok"⟩])
          (visionIsConfident (availableOf [⟨"hive", some 50, 1/2, "ok"⟩]))))
        (round2R (calculateVariance (rawScoresOf (availableOf [⟨"hive", some 50, 1/2, "ok"⟩])))) :=
  ⟨(c10_rounded_fields [⟨"hive", some 50, 1/2, "ok"⟩] (by decide)).1,
   (c10_rounded_fields [⟨"hive", some 50, 1/2, "ok"⟩] (by decide)).2.2.2.2 none rfl⟩

/-- The five ensemble decision rules of `determineVerdict`, as raw guards
over the stored score and the variance as compared: null score; variance
above 25; score below 30 with variance below 15; score above 70 with
variance below 15; the residual middle band. -/
def verdictRule (i : Fin 5) (score : Option ℚ) (v : ℝ) : Prop :=
  if i.val = 0 then score = none
  else if i.val = 1 then score ≠ none ∧ (25 : ℝ) < v
  else if i.val = 2 then ∃ s, score = some s ∧ s < 30 ∧ v < (15 : ℝ)
  else if i.val = 3 then ∃ s, score = some s ∧ 70 < s ∧ v < (15 : ℝ)
  else ∃ s, score = some s ∧ ¬((25 : ℝ) < v) ∧
    ¬(s < 30 ∧ v < (15 : ℝ)) ∧ ¬(70 < s ∧ v < (15 : ℝ))

/-- Verdict assigned by each of the five ensemble decision rules. -/
def ruleVerdict (i : Fin 5) : Verdict :=
  if i.val = 0 then .INCONCLUSIVE
  else if i.val = 1 then .INCONCLUSIVE
  else if i.val = 2 then .LIKELY_AUTHENTIC
  else if i.val = 3 then .LIKELY_SYNTHETIC
  else .UNCERTAIN

/-- The index of the rule that the evaluation order of `determineVerdict`
reaches for a given score and variance. -/
noncomputable def ruleIndex (score : Option ℚ) (v : ℝ) : Fin 5 :=
  match score with
  | none => 0
  | some s =>
      if (25 : ℝ) < v then 1
      else if s < 30 ∧ v < (15 : ℝ) then 2
      else if 70 < s ∧ v < (15 : ℝ) then 3
      else 4

/-- Unfolding of rule 0. -/
lemma verdictRule_zero (score : Option ℚ) (v : ℝ) :
    verdictRule 0 score v = (score = none) := rfl

/-- Unfolding of rule 1. -/
lemma verdictRule_one (score : Option ℚ) (v : ℝ) :
    verdictRule 1 score v = (score ≠ none ∧ (25 : ℝ) < v) := rfl

/-- Unfolding of rule 2. -/
lemma verdictRule_two (score : Option ℚ) (v : ℝ) :
    verdictRule 2 score v = ∃ s, score = some s ∧ s < 30 ∧ v < (15 : ℝ) := rfl

/-- Unfolding of rule 3. -/
lemma verdictRule_three (score : Option ℚ) (v : ℝ) :
    verdictRule 3 score v = ∃ s, score = some s ∧ 70 < s ∧ v < (15 : ℝ) := rfl

/-- Unfolding of rule 4. -/
lemma verdictRule_four (score : Option ℚ) (v : ℝ) :
    verdictRule 4 score v = ∃ s, score = some s ∧ ¬((25 : ℝ) < v) ∧
      ¬(s < 30 ∧ v < (15 : ℝ)) ∧ ¬(70 < s ∧ v < (15 : ℝ)) := rfl

/-- The reached rule really holds. -/
lemma verdictRule_ruleIndex (score : Option ℚ) (v : ℝ) :
    verdictRule (ruleIndex score v) score v := by
  rcases score with _ | s
  · rw [ruleIndex, verdictRule_zero]
  · rw [ruleIndex]
    by_cases h1 : (25 : ℝ) < v
    · rw [if_pos h1, verdictRule_one]
      exact ⟨by simp, h1⟩
    · rw [if_neg h1]
      by_cases h2 : s < 30 ∧ v < (15 : ℝ)
      · rw [if_pos h2, verdictRule_two]
        exact ⟨s, rfl, h2⟩
      · rw [if_neg h2]
        by_cases h3 : 70 < s ∧ v < (15 : ℝ)
        · rw [if_pos h3, verdictRule_three]
          exact ⟨s, rfl, h3⟩
        · rw [if_neg h3, verdictRule_four]
          exact ⟨s, rfl, h1, h2, h3⟩

/-- No other rule holds: the five raw guards are mutually exclusive. -/
lemma verdictRule_eq_ruleIndex {score : Option ℚ} {v : ℝ} {j : Fin 5}
    (hj : verdictRule j score v) : j = ruleIndex score v := by
  obtain ⟨jv, hj5⟩ := j
  rcases score with _ | s
  · rw [ruleIndex]
    interval_cases jv
    · rfl
    · rw [show (⟨1, hj5⟩ : Fin 5) = 1 from rfl, verdictRule_one] at hj
      exact absurd rfl hj.1
    · rw [show (⟨2, hj5⟩ : Fin 5) = 2 from rfl, verdictRule_two] at hj
      obtain ⟨s, hs, -⟩ := hj
      exact Option.noConfusion hs
    · rw [show (⟨3, hj5⟩ : Fin 5) = 3 from rfl, verdictRule_three] at hj
      obtain ⟨s, hs, -⟩ := hj
      exact Option.noConfusion hs
    · rw [show (⟨4, hj5⟩ : Fin 5) = 4 from rfl, verdictRule_four] at hj
      obtain ⟨s, hs, -⟩ := hj
      exact Option.noConfusion hs
  · rw [ruleIndex]
    interval_cases jv
    · rw [show (⟨0, hj5⟩ : Fin 5) = 0 from rfl, verdictRule_zero] at hj
      exact Option.noConfusion hj
    · rw [show (⟨1, hj5⟩ : Fin 5) = 1 from rfl, verdictRule_one] at hj
      rw [if_pos hj.2]
      rfl
    · rw [show (⟨2, hj5⟩ : Fin 5) = 2 from rfl, verdictRule_two] at hj
      obtain ⟨s2, hs2, hlt, hv⟩ := hj
      obtain rfl : s = s2 := Option.some.inj hs2
      rw [if_neg (by intro h1; linarith), if_pos ⟨hlt, hv⟩]
      rfl
    · rw [show (⟨3, hj5⟩ : Fin 5) = 3 from rfl, verdictRule_three] at hj
      obtain ⟨s2, hs2, hgt, hv⟩ := hj
      obtain rfl : s = s2 := Option.some.inj hs2
      rw [if_neg (by intro h1; linarith),
        if_neg (by intro h2; linarith [h2.1]), if_pos ⟨hgt, hv⟩]
      rfl
    · rw [show (⟨4, hj5⟩ : Fin 5) = 4 from rfl, verdictRule_four] at hj
      obtain ⟨s2, hs2, hnv, hna, hns⟩ := hj
      obtain rfl : s = s2 := Option.some.inj hs2
      rw [if_neg hnv, if_neg hna, if_neg hns]
      rfl

/-- On a failed provenance guard, the verdict is the one of the reached
rule. -/
lemma determineVerdict_eq_ruleVerdict (e : EnsembleResult)
    (p : Option ProvenanceResult) (hp : provenanceValid p = false) :
    (determineVerdict e p).verdict = ruleVerdict (ruleIndex e.score (varJS e)) := by
  rcases hs : e.score with _ | s
  · rw [ruleIndex]
    unfold determineVerdict
    rw [hp, hs]
    rfl
  · rw [determineVerdict_of_some e p hp s hs, ruleIndex]
    unfold thresholdVerdict
    by_cases h1 : (25 : ℝ) < varJS e
    · rw [if_pos h1, if_pos h1]
      rfl
    · rw [if_neg h1, if_neg h1]
      by_cases h2 : s < 30 ∧ varJS e < (15 : ℝ)
      · rw [if_pos h2, if_pos h2]
        rfl
      · rw [if_neg h2, if_neg h2]
        by_cases h3 : 70 < s ∧ varJS e < (15 : ℝ)
        · rw [if_pos h3, if_pos h3]
          rfl
        · rw [if_neg h3, if_neg h3]
          rfl

/-- C2: the provenance override fires first; on every other input exactly
one of the five ensemble decision rules holds — they are mutually exclusive
and total, with the variance gate taking precedence over the score rules —
and `determineVerdict` returns that rule's verdict. -/
theorem c2_exactly_one_rule (e : EnsembleResult) (p : Option ProvenanceResult) :
    (provenanceValid p = true →
      (determineVerdict e p).verdict = Verdict.VERIFIED_AUTHENTIC) ∧
    (provenanceValid p = false →
      (∃! i : Fin 5, verdictRule i e.score (varJS e)) ∧
      (∀ i : Fin 5, verdictRule i e.score (varJS e) →
        (determineVerdict e p).verdict = ruleVerdict i)) := by
  constructor
  · intro hp
    simp [determineVerdict, hp]
  · intro hp
    refine ⟨⟨ruleIndex e.score (varJS e), verdictRule_ruleIndex _ _,
      fun j hj => verdictRule_eq_ruleIndex hj⟩, ?_⟩
    intro i hi
    rw [verdictRule_eq_ruleIndex hi]
    exact determineVerdict_eq_ruleVerdict e p hp

/-- Ensemble result used to instantiate the C2 witness: score 10,
variance 5. -/
noncomputable def lowScoreEnsemble : EnsembleResult :=
  { score := some 10, variance := some 5, confidence := 9/10,
    availableDetectors := 2, visionCouncilDominant := false,
    audit := { detectors := [], note := none, weights := none, calculation := none } }

/-- Witness for C2: on score 10 with variance 5 and no provenance, rule 2
fires and the verdict is the one of rule 2 (LIKELY_AUTHENTIC). -/
theorem c2_exactly_one_rule_witness :
    (determineVerdict lowScoreEnsemble none).verdict = ruleVerdict 2 := by
  refine ((c2_exactly_one_rule lowScoreEnsemble none).2 rfl).2 2 ?_
  rw [verdictRule_two]
  refine ⟨10, rfl, by norm_num, ?_⟩
  show varJS lowScoreEnsemble < (15 : ℝ)
  rw [show varJS lowScoreEnsemble = 5 from rfl]
  norm_num

/-- Every default weight is positive (the table holds positive values and
the fallback is 0.10). -/
lemma defaultWeight_pos (source : String) : 0 < defaultWeight source := by
  unfold defaultWeight DETECTOR_WEIGHTS
  split <;> norm_num [Option.getD]

/-- Every effective weight is positive, boosted or not. -/
lemma effectiveWeight_pos (dominant : Bool) (source : String) :
    0 < effectiveWeight dominant source := by
  unfold effectiveWeight
  split_ifs
  · norm_num
  · exact mul_pos (defaultWeight_pos source) (by norm_num)
  · exact defaultWeight_pos source

/-- The total weight over a non-empty available list is positive. -/
lemma totalWeightOf_pos (avail : List DetectorResult) (h : avail ≠ [])
    (dominant : Bool) : 0 < totalWeightOf avail dominant := by
  rcases avail with _ | ⟨r, t⟩
  · exact absurd rfl h
  · unfold totalWeightOf
    rw [List.map_cons, List.sum_cons]
    have h1 : 0 < effectiveWeight dominant r.source := effectiveWeight_pos _ _
    have h2 : 0 ≤ (t.map (fun r => effectiveWeight dominant r.source)).sum := by
      refine List.sum_nonneg ?_
      intro x hx
      obtain ⟨r2, _, rfl⟩ := List.mem_map.mp hx
      exact (effectiveWeight_pos _ _).le
    linarith

/-- C3: on at least one available score, the total effective weight is
positive and the returned ensemble score is the rounded weighted average
Σ(score·effectiveWeight)/Σ(effectiveWeight) over exactly the available
results — renormalized over the responding subset — with sources missing
from the weight table defaulting to weight 0.10. -/
theorem c3_renormalized_weighted_average (results : List DetectorResult)
    (h : availableOf results ≠ []) :
    0 < totalWeightOf (availableOf results) (visionIsConfident (availableOf results)) ∧
    (calculateEnsembleScore results).score =
      some (roundQ2
        (weightedSumOf (availableOf results) (visionIsConfident (availableOf results)) /
         totalWeightOf (availableOf results) (visionIsConfident (availableOf results)))) ∧
    (∀ source, DETECTOR_WEIGHTS source = none → defaultWeight source = 1/10) := by
  have hpos := totalWeightOf_pos _ h (visionIsConfident (availableOf results))
  refine ⟨hpos, ?_, ?_⟩
  · rw [calculateEnsembleScore_ne_nil results h]
    simp only [normalizedScoreOf, if_pos hpos]
  · intro source hsrc
    unfold defaultWeight
    rw [hsrc]
    rfl

/-- Witness for C3: one available hive detector scoring 50. -/
theorem c3_renormalized_weighted_average_witness :
    0 < totalWeightOf (availableOf [⟨"hive", some 50, 1/2, "ok"⟩])
      (visionIsConfident (availableOf [⟨"hive", some 50, 1/2, "ok"⟩])) ∧
    (calculateEnsembleScore [⟨"hive", some 50, 1/2, "ok"⟩]).score =
      some (roundQ2
        (weightedSumOf (availableOf [⟨"hive", some 50, 1/2, "ok"⟩])
          (visionIsConfident (availableOf [⟨"hive", some 50, 1/2, "ok"⟩])) /
         totalWeightOf (availableOf [⟨"hive", some 50, 1/2, "ok"⟩])
          (visionIsConfident (availableOf [⟨"hive", some 50, 1/2, "ok"⟩])))) :=
  ⟨(c3_renormalized_weighted_average [⟨"hive", some 50, 1/2, "ok"⟩] (by decide)).1,
   (c3_renormalized_weighted_average [⟨"hive", some 50, 1/2, "ok"⟩] (by decide)).2.1⟩

/-- Input refuting C4 as literally stated: two vision_council entries, of
which only the second qualifies as a dominant signal. -/
def dupVisionCouncil : List DetectorResult :=
  [⟨"vision_council", some 50, 9/10, "first"⟩,
   ⟨"vision_council", some 80, 9/10, "second"⟩]

/-- Counterexample to C4: the available set contains a vision_council entry
with confidence ≥ 0.80 and score ≥ 75, yet the boost does not trigger,
because the code consults only the first vision_council entry found. -/
theorem c4_counterexample :
    (⟨"vision_council", some 80, 9/10, "second"⟩ : DetectorResult) ∈
      availableOf dupVisionCouncil ∧
    (⟨"vision_council", some 80, 9/10, "second"⟩ : DetectorResult).source =
      "vision_council" ∧
    (4/5 : ℚ) ≤ (⟨"vision_council", some 80, 9/10, "second"⟩ : DetectorResult).confidence ∧
    (75 : ℚ) ≤ scoreQ ⟨"vision_council", some 80, 9/10, "second"⟩ ∧
    (calculateEnsembleScore dupVisionCouncil).visionCouncilDominant = false := by
  have hav : availableOf dupVisionCouncil = dupVisionCouncil := rfl
  refine ⟨?_, rfl, by norm_num, by norm_num [scoreQ], ?_⟩
  · rw [hav]
    simp [dupVisionCouncil]
  · rw [calculateEnsembleScore_ne_nil _ (by rw [hav]; simp [dupVisionCouncil])]
    rw [hav]
    norm_num [visionIsConfident, findVisionCouncil, scoreQ, dupVisionCouncil, List.find?]

/-- C4 (amended): the boost triggers iff the first vision_council entry of
the available list has confidence ≥ 0.80 and score ≥ 75 or ≤ 25; under the
boost vision_council weighs 0.70 and every other source half its default;
a score of 50 with confidence 0.95 does not trigger it; and the returned
flag equals the trigger condition. -/
theorem c4_dominant_boost (results : List DetectorResult) :
    ((calculateEnsembleScore results).visionCouncilDominant =
      visionIsConfident (availableOf results)) ∧
    (visionIsConfident (availableOf results) = true ↔
      ∃ r, findVisionCouncil (availableOf results) = some r ∧
        (4/5 : ℚ) ≤ r.confidence ∧
        ((75 : ℚ) ≤ scoreQ r ∨ scoreQ r ≤ (25 : ℚ))) ∧
    effectiveWeight true "vision_council" = 7/10 ∧
    (∀ source, source ≠ "vision_council" →
      effectiveWeight true source = defaultWeight source * (1/2)) ∧
    visionIsConfident [⟨"vision_council", some 50, 19/20, "mid"⟩] = false := by
  refine ⟨?_, ?_, rfl, ?_,
    by norm_num [visionIsConfident, findVisionCouncil, scoreQ, List.find?]⟩
  · by_cases h : availableOf results = []
    · have hlen : (availableOf results).length = 0 := by rw [h]; rfl
      rw [h]
      simp [calculateEnsembleScore, hlen, visionIsConfident, findVisionCouncil]
    · rw [calculateEnsembleScore_ne_nil results h]
  · unfold visionIsConfident
    rcases hf : findVisionCouncil (availableOf results) with _ | vc
    · simp
    · simp [Bool.and_eq_true, Bool.or_eq_true, decide_eq_true_eq]
  · intro s hs
    have hbeq : (s == "vision_council") = false := by
      simpa using hs
    simp [effectiveWeight, hbeq]

/-- Witness for C4: under the boost, hive's default weight is halved. -/
theorem c4_dominant_boost_witness :
    effectiveWeight true "hive" = defaultWeight "hive" * (1/2) :=
  (c4_dominant_boost []).2.2.2.1 "hive" (by decide)

/-- Two-decimal rounding moves a rational up by at most half a unit. -/
lemma roundQ2_le_add (x : ℚ) : roundQ2 x ≤ x + 1/200 := by
  unfold roundQ2
  have h : ((⌊x * 100 + 1/2⌋ : ℤ) : ℚ) ≤ x * 100 + 1/2 := Int.floor_le _
  linarith

/-- Two-decimal rounding moves a rational down by at most half a unit. -/
lemma sub_le_roundQ2 (x : ℚ) : x - 1/200 ≤ roundQ2 x := by
  unfold roundQ2
  have h : x * 100 + 1/2 < ((⌊x * 100 + 1/2⌋ : ℤ) : ℚ) + 1 := Int.lt_floor_add_one _
  linarith

/-- Upper bound of the weighted sum by a score bound. -/
lemma weightedSumOf_le (avail : List DetectorResult) (dominant : Bool) (B : ℚ)
    (hB : ∀ r ∈ avail, scoreQ r ≤ B) :
    weightedSumOf avail dominant ≤ B * totalWeightOf avail dominant := by
  unfold weightedSumOf totalWeightOf
  rw [← List.sum_map_mul_left]
  refine List.sum_le_sum ?_
  intro r hr
  exact mul_le_mul_of_nonneg_right (hB r hr) (effectiveWeight_pos dominant r.source).le

/-- Lower bound of the weighted sum by a score bound. -/
lemma le_weightedSumOf (avail : List DetectorResult) (dominant : Bool) (b : ℚ)
    (hb : ∀ r ∈ avail, b ≤ scoreQ r) :
    b * totalWeightOf avail dominant ≤ weightedSumOf avail dominant := by
  unfold weightedSumOf totalWeightOf
  rw [← List.sum_map_mul_left]
  refine List.sum_le_sum ?_
  intro r hr
  exact mul_le_mul_of_nonneg_right (hb r hr) (effectiveWeight_pos dominant r.source).le

/-- Input refuting C8 as literally stated: a single raw score of 0.006
rounds to a returned score of 0.01, above the maximum raw score. -/
def tinyScore : List DetectorResult :=
  [⟨"hive", some (3/500), 1, "tiny"⟩]

/-- Counterexample to C8: with the lone available raw score 3/500 = 0.006,
the returned (rounded) ensemble score is 1/100 = 0.01, which exceeds the
maximum of the available raw scores. -/
theorem c8_counterexample :
    rawScoresOf (availableOf tinyScore) = [3/500] ∧
    (calculateEnsembleScore tinyScore).score = some (1/100) ∧
    ¬ ((1/100 : ℚ) ≤ 3/500) := by
  refine ⟨rfl, ?_, by norm_num⟩
  have h : availableOf tinyScore ≠ [] := by
    simp [availableOf, tinyScore, isAvailable]
  rw [calculateEnsembleScore_ne_nil _ h]
  have hbeq : ("hive" == "vision_council") = false := by decide
  have hdom : visionIsConfident (availableOf tinyScore) = false := by
    norm_num [visionIsConfident, findVisionCouncil, availableOf, tinyScore,
      isAvailable, List.find?, hbeq]
  rw [hdom]
  norm_num [normalizedScoreOf, totalWeightOf, weightedSumOf, availableOf,
    tinyScore, isAvailable, effectiveWeight, defaultWeight, DETECTOR_WEIGHTS,
    scoreQ, roundQ2]

/-- C8 (amended): the unrounded normalized ensemble score always lies within
the bounds of the available raw scores; the returned score is its
two-decimal rounding, which can leave that interval by at most half a
rounding unit (0.005) on either side. -/
theorem c8_score_within_bounds (results : List DetectorResult) (b B : ℚ)
    (h : availableOf results ≠ [])
    (hb : ∀ r ∈ availableOf results, b ≤ scoreQ r ∧ scoreQ r ≤ B) :
    b ≤ normalizedScoreOf (availableOf results)
      (visionIsConfident (availableOf results)) ∧
    normalizedScoreOf (availableOf results)
      (visionIsConfident (availableOf results)) ≤ B ∧
    (calculateEnsembleScore results).score =
      some (roundQ2 (normalizedScoreOf (availableOf results)
        (visionIsConfident (availableOf results)))) ∧
    b - 1/200 ≤ roundQ2 (normalizedScoreOf (availableOf results)
      (visionIsConfident (availableOf results))) ∧
    roundQ2 (normalizedScoreOf (availableOf results)
      (visionIsConfident (availableOf results))) ≤ B + 1/200 := by
  have hpos := totalWeightOf_pos _ h (visionIsConfident (availableOf results))
  have hup := weightedSumOf_le (availableOf results)
    (visionIsConfident (availableOf results)) B (fun r hr => (hb r hr).2)
  have hlo := le_weightedSumOf (availableOf results)
    (visionIsConfident (availableOf results)) b (fun r hr => (hb r hr).1)
  have hnorm : normalizedScoreOf (availableOf results)
      (visionIsConfident (availableOf results)) =
      weightedSumOf (availableOf results) (visionIsConfident (availableOf results)) /
      totalWeightOf (availableOf results) (visionIsConfident (availableOf results)) := by
    unfold normalizedScoreOf
    rw [if_pos hpos]
  have h1 : b ≤ normalizedScoreOf (availableOf results)
      (visionIsConfident (availableOf results)) := by
    rw [hnorm, le_div_iff₀ hpos]
    linarith
  have h2 : normalizedScoreOf (availableOf results)
      (visionIsConfident (availableOf results)) ≤ B := by
    rw [hnorm, div_le_iff₀ hpos]
    linarith
  refine ⟨h1, h2, ?_, ?_, ?_⟩
  · rw [calculateEnsembleScore_ne_nil results h]
  · have h3 := sub_le_roundQ2 (normalizedScoreOf (availableOf results)
      (visionIsConfident (availableOf results)))
    linarith
  · have h4 := roundQ2_le_add (normalizedScoreOf (availableOf results)
      (visionIsConfident (availableOf results)))
    linarith

/-- Witness for C8 at a single detector scoring 50. -/
theorem c8_score_within_bounds_witness :
    (50 : ℚ) ≤ normalizedScoreOf (availableOf [⟨"hive", some 50, 1/2, "ok"⟩])
      (visionIsConfident (availableOf [⟨"hive", some 50, 1/2, "ok"⟩])) ∧
    normalizedScoreOf (availableOf [⟨"hive", some 50, 1/2, "ok"⟩])
      (visionIsConfident (availableOf [⟨"hive", some 50, 1/2, "ok"⟩])) ≤ 50 ∧
    (calculateEnsembleScore [⟨"hive", some 50, 1/2, "ok"⟩]).score =
      some (roundQ2 (normalizedScoreOf (availableOf [⟨"hive", some 50, 1/2, "ok"⟩])
        (visionIsConfident (availableOf [⟨"hive", some 50, 1/2, "ok"⟩])))) ∧
    (50 : ℚ) - 1/200 ≤ roundQ2 (normalizedScoreOf (availableOf [⟨"hive", some 50, 1/2, "ok"⟩])
      (visionIsConfident (availableOf [⟨"hive", some 50, 1/2, "ok"⟩]))) ∧
    roundQ2 (normalizedScoreOf (availableOf [⟨"hive", some 50, 1/2, "ok"⟩])
      (visionIsConfident (availableOf [⟨"hive", some 50, 1/2, "ok"⟩]))) ≤ (50 : ℚ) + 1/200 :=
  c8_score_within_bounds [⟨"hive", some 50, 1/2, "ok"⟩] 50 50 (by decide)
    (by simp [availableOf, isAvailable, scoreQ])

/-- Input refuting C9 as literally stated: under the dominant boost,
sightengine's effective weight 0.075 is not representable in two
decimals. -/
def boostedPair : List DetectorResult :=
  [⟨"vision_council", some 80, 9/10, "vc"⟩, ⟨"sightengine", some 60, 1/2, "se"⟩]

/-- Counterexample to C9: the weight multiplied into the weighted sum for
sightengine is 3/40 = 0.075, but the audit records the rounded 2/25 = 0.08,
so the audit does not hold the weight actually used. -/
theorem c9_counterexample :
    visionIsConfident (availableOf boostedPair) = true ∧
    effectiveWeight true "sightengine" = 3/40 ∧
    (calculateEnsembleScore boostedPair).audit.detectors =
      [⟨"vision_council", 80, 7/10, 9/10, "vc"⟩,
       ⟨"sightengine", 60, 2/25, 1/2, "se"⟩] ∧
    (2/25 : ℚ) ≠ 3/40 := by
  have hvic : visionIsConfident (availableOf boostedPair) = true := by
    norm_num [visionIsConfident, findVisionCouncil, scoreQ, availableOf,
      boostedPair, isAvailable, List.find?]
  have hne : ¬ ("sightengine" = "vision_council") := by decide
  have hse : effectiveWeight true "sightengine" = 3/40 := by
    norm_num [effectiveWeight, defaultWeight, DETECTOR_WEIGHTS, hne]
  refine ⟨hvic, hse, ?_, by norm_num⟩
  have h : availableOf boostedPair ≠ [] := by
    simp [availableOf, boostedPair, isAvailable]
  rw [calculateEnsembleScore_ne_nil _ h]
  show auditDetectorsOf (availableOf boostedPair)
    (visionIsConfident (availableOf boostedPair)) = _
  rw [hvic]
  norm_num [auditDetectorsOf, availableOf, boostedPair, isAvailable, scoreQ,
    effectiveWeight, defaultWeight, DETECTOR_WEIGHTS, roundQ2, hne]

/-- C9 (amended): the audit contains one record per available detector with
its raw score, its confidence, its metadata, and the effective weight
rounded to two decimals (within 0.005 of the weight actually multiplied
into the weighted sum), plus the static weight table; the unrounded sums
are kept in `audit.calculation`. -/
theorem c9_audit_trail (results : List DetectorResult)
    (h : availableOf results ≠ []) :
    (calculateEnsembleScore results).audit.detectors =
      (availableOf results).map (fun r =>
        { source := r.source, score := scoreQ r,
          weight := roundQ2 (effectiveWeight
            (visionIsConfident (availableOf results)) r.source),
          confidence := r.confidence, metadata := r.metadata }) ∧
    (calculateEnsembleScore results).audit.weights = some DETECTOR_WEIGHTS ∧
    (calculateEnsembleScore results).audit.calculation =
      some { weightedSum := weightedSumOf (availableOf results)
               (visionIsConfident (availableOf results)),
             totalWeight := totalWeightOf (availableOf results)
               (visionIsConfident (availableOf results)),
             normalizedScore := normalizedScoreOf (availableOf results)
               (visionIsConfident (availableOf results)),
             visionCouncilBoosted := visionIsConfident (availableOf results) } := by
  rw [calculateEnsembleScore_ne_nil results h]
  exact ⟨rfl, rfl, rfl⟩

/-- Witness for C9 at one available detector. -/
theorem c9_audit_trail_witness :
    (calculateEnsembleScore [⟨"hive", some 50, 1/2, "ok"⟩]).audit.detectors =
      (availableOf [⟨"hive", some 50, 1/2, "ok"⟩]).map (fun r =>
        { source := r.source, score := scoreQ r,
          weight := roundQ2 (effectiveWeight
            (visionIsConfident (availableOf [⟨"hive", some 50, 1/2, "ok"⟩])) r.source),
          confidence := r.confidence, metadata := r.metadata }) ∧
    (calculateEnsembleScore [⟨"hive", some 50, 1/2, "ok"⟩]).audit.weights =
      some DETECTOR_WEIGHTS :=
  ⟨(c9_audit_trail [⟨"hive", some 50, 1/2, "ok"⟩] (by decide)).1,
   (c9_audit_trail [⟨"hive", some 50, 1/2, "ok"⟩] (by decide)).2.1⟩

end IsItReal
